import Mathlib

/-!
Verification of the TTL in-memory cache (phase6_deployment/ch22_performance)
and the JWT authorization chain (phase4_auth/ch14_jwt_auth, ch15_permissions)
of the fastapi-study repository, as a shallow embedding in Lean 4.

Time is modelled as `Nat` (seconds); Python values relevant to the cache are
modelled by the inductive `PyVal`, with `PyVal.none` playing the role of
Python's `None`.  Python dicts keyed by strings are modelled as association
lists with the operations `dictLookup` / `dictInsert` / `dictErase`.
-/

set_option autoImplicit false

/-- Model of the Python values that flow through the cache: `None`, ints,
strings and booleans.  `PyVal.none` is Python's `None` singleton. -/
inductive PyVal where
  | none : PyVal
  | int : Int → PyVal
  | str : String → PyVal
  | bool : Bool → PyVal
deriving DecidableEq, Repr

/-- Lookup in a string-keyed Python dict modelled as an association list. -/
def dictLookup {α : Type} : List (String × α) → String → Option α
  | [], _ => Option.none
  | (k, v) :: rest, key => if k = key then some v else dictLookup rest key

/-- Model of `d[key] = v` on a Python dict: overwrite in place if the key is
present, append otherwise. -/
def dictInsert {α : Type} : List (String × α) → String → α → List (String × α)
  | [], key, v => [(key, v)]
  | (k, w) :: rest, key, v =>
      if k = key then (key, v) :: rest else (k, w) :: dictInsert rest key v

/-- Model of `del d[key]` on a Python dict. -/
def dictErase {α : Type} : List (String × α) → String → List (String × α)
  | [], _ => []
  | (k, v) :: rest, key =>
      if k = key then dictErase rest key else (k, v) :: dictErase rest key

theorem dictLookup_insert_self {α : Type} (d : List (String × α)) (key : String) (v : α) :
    dictLookup (dictInsert d key v) key = some v := by
  induction d with
  | nil => simp [dictInsert, dictLookup]
  | cons p rest ih =>
      obtain ⟨k, w⟩ := p
      by_cases h : k = key
      · simp [dictInsert, dictLookup, h]
      · simp [dictInsert, dictLookup, h, ih]

theorem dictLookup_erase {α : Type} (d : List (String × α)) (key k : String) :
    dictLookup (dictErase d key) k =
      if k = key then Option.none else dictLookup d k := by
  induction d with
  | nil => by_cases h : k = key <;> simp [dictErase, dictLookup, h]
  | cons p rest ih =>
      obtain ⟨k0, w⟩ := p
      by_cases h0 : k0 = key
      · by_cases h : k = key
        · subst h
          simp [dictErase, dictLookup, h0, ih]
        · have hk : ¬ key = k := fun hE => h hE.symm
          simp [dictErase, dictLookup, h0, h, hk, ih]
      · by_cases h1 : k0 = k
        · have hk : ¬ k = key := by
            intro hE
            exact h0 (h1.trans hE)
          simp [dictErase, dictLookup, h0, h1, hk, ih]
        · simp [dictErase, dictLookup, h0, h1, ih]

/-- State of `InMemoryCache` (ch22): the entry map `_store` mapping a key to a
(value, expires_at) pair, plus the `_hits` and `_misses` counters. -/
structure InMemoryCache where
  store : List (String × (PyVal × Nat))
  hits : Nat
  misses : Nat
deriving DecidableEq, Repr

/-- Embedding of `InMemoryCache.get` (ch22 main.py lines 53-67): if the key is
present and `now < expires_at`, increment `_hits` and return the stored value;
if present but expired, delete the entry, increment `_misses` and return
`None`; if absent, increment `_misses` and return `None`. -/
def InMemoryCache.get (c : InMemoryCache) (now : Nat) (key : String) :
    PyVal × InMemoryCache :=
  match dictLookup c.store key with
  | some (value, expires_at) =>
      if now < expires_at then
        (value, { c with hits := c.hits + 1 })
      else
        (PyVal.none,
          { c with store := dictErase c.store key, misses := c.misses + 1 })
  | Option.none => (PyVal.none, { c with misses := c.misses + 1 })

/-- Embedding of `InMemoryCache.set` (ch22 main.py lines 69-75): store the
value with `expires_at = now + ttl`, unconditionally overwriting. -/
def InMemoryCache.set (c : InMemoryCache) (now : Nat) (key : String)
    (value : PyVal) (ttl : Nat) : InMemoryCache :=
  { c with store := dictInsert c.store key (value, now + ttl) }

/-- Single-quote character, used by Python's `repr` of strings. -/
def pyQuote : String := String.singleton (Char.ofNat 39)

/-- Model of Python's `repr`/`str` on the values of `PyVal`, as used by the
f-string in the cache-key derivation of the `cached` decorator. -/
def pyRepr : PyVal → String
  | PyVal.none => "None"
  | PyVal.int n => toString n
  | PyVal.str s => pyQuote ++ s ++ pyQuote
  | PyVal.bool b => if b then "True" else "False"

/-- Model of `str(args)` for a Python tuple of positional arguments (note the
trailing comma Python prints for a 1-tuple). -/
def tupleRepr : List PyVal → String
  | [] => "()"
  | [a] => "(" ++ pyRepr a ++ ",)"
  | args => "(" ++ String.intercalate ", " (args.map pyRepr) ++ ")"

/-- Model of `str` of one `(name, value)` item of `kwargs.items()`. -/
def kwItemRepr (p : String × PyVal) : String :=
  "(" ++ pyQuote ++ p.1 ++ pyQuote ++ ", " ++ pyRepr p.2 ++ ")"

/-- Model of `str(sorted(kwargs.items()))`: a Python list display of the
keyword items. -/
def kwargsRepr (ks : List (String × PyVal)) : String :=
  "[" ++ String.intercalate ", " (ks.map kwItemRepr) ++ "]"

/-- Insertion step of `sorted(kwargs.items())` ordered by keyword name
(keyword names are unique in a call, so ordering by the key suffices). -/
def insertSortedKw (p : String × PyVal) :
    List (String × PyVal) → List (String × PyVal)
  | [] => [p]
  | q :: rest =>
      if q.1 < p.1 then q :: insertSortedKw p rest else p :: q :: rest

/-- Model of `sorted(kwargs.items())` by insertion sort on the keyword name. -/
def sortKwargs : List (String × PyVal) → List (String × PyVal)
  | [] => []
  | p :: rest => insertSortedKw p (sortKwargs rest)

/-- Embedding of the cache-key source string of the `cached` decorator (ch22
main.py line 133): the f-string interpolating the function name, the
positional-argument tuple and the sorted keyword items.  The source then takes
the md5 hexdigest of this string (line 134); md5 is a fixed deterministic
function, so every equality of key sources proved below is preserved by the
actual key (md5 can only merge keys, never separate equal ones). -/
def key_source (fname : String) (args : List PyVal)
    (kwargs : List (String × PyVal)) : String :=
  fname ++ ":" ++ tupleRepr args ++ ":" ++ kwargsRepr (sortKwargs kwargs)

/-- Model of a raised Python exception (identified by its message). -/
structure PyExc where
  msg : String
deriving DecidableEq, Repr

/-- Model of an async Python function wrapped by the `cached` decorator: its
`__name__` together with its behaviour on (positional, keyword) arguments,
which either raises an exception or returns a value. -/
structure PyFunc where
  name : String
  impl : List PyVal → List (String × PyVal) → Except PyExc PyVal

/-- The cache key the `cached` decorator derives for a call to a wrapped
function: only `func.__name__` enters the key source, not the function
object's identity. -/
def PyFunc.cacheKey (f : PyFunc) (args : List PyVal)
    (kwargs : List (String × PyVal)) : String :=
  key_source f.name args kwargs

/-- Embedding of one call to the `wrapper` produced by the `cached` decorator
(ch22 main.py lines 131-147): derive the key, consult `cache.get`; if the
result `is not None` return it without invoking the wrapped function;
otherwise invoke the wrapped function — if it raises, the exception propagates
and nothing is stored; if it returns, `cache.set` the result and return it.
The third component of the result counts how many times the wrapped function
was invoked during this call (0 or 1). -/
def cachedCall (f : PyFunc) (ttl : Nat) (args : List PyVal)
    (kwargs : List (String × PyVal)) (now : Nat) (c : InMemoryCache) :
    Except PyExc PyVal × InMemoryCache × Nat :=
  let cache_key := f.cacheKey args kwargs
  let r := InMemoryCache.get c now cache_key
  if r.1 ≠ PyVal.none then
    (Except.ok r.1, r.2, 0)
  else
    match f.impl args kwargs with
    | Except.error e => (Except.error e, r.2, 1)
    | Except.ok result =>
        (Except.ok result, InMemoryCache.set r.2 now cache_key result ttl, 1)

/-- User roles of ch15 (`Role` enum). -/
inductive Role where
  | admin : Role
  | user : Role
  | viewer : Role
deriving DecidableEq, Repr

/-- Embedding of `UserInDB` (ch15 main.py lines 67-75): the stored user
record, with `disabled` playing the spec's `active = not disabled` flag and
`scopes` the list of scopes granted to the user. -/
structure UserInDB where
  username : String
  full_name : String
  email : String
  role : Role
  hashed_password : String
  disabled : Bool
  scopes : List String
deriving DecidableEq, Repr

/-- Model of a raised `HTTPException`: status code and detail message. -/
structure HTTPError where
  status_code : Nat
  detail : String
deriving DecidableEq, Repr

/-- Embedding of a decoded JWT payload as built by ch15: the `sub` claim (the
subject user name, absent when the payload carries no `sub`), the `scopes`
claim, and the `exp` expiry timestamp. -/
structure Payload where
  sub : Option String
  scopes : List String
  exp : Nat
deriving DecidableEq, Repr

/-- Error kinds of JWT verification: `python-jose` raises `JWTError` on a
signature mismatch or malformed payload and its subclass
`ExpiredSignatureError` when the token is past its expiry. -/
inductive JwtFailure where
  | invalidToken : JwtFailure
  | expired : JwtFailure
deriving DecidableEq, Repr

/-- Modelled from the spec: the Token Codec is the external `python-jose`
library (`jwt.encode` / `jwt.decode`), which is not part of this repository's
sources.  A token is its payload together with its signature; the HMAC
signature over the serialized payload is modelled tamper-evidently as the
(secret, payload) pair itself. -/
structure JwtToken where
  payload : Payload
  sig : String × Payload
deriving DecidableEq, Repr

/-- Modelled from the spec: `jwt.encode(to_encode, secret, algorithm)` signs
the payload with the symmetric secret and returns the token. -/
def jwtEncode (secret : String) (p : Payload) : JwtToken :=
  { payload := p, sig := (secret, p) }

/-- Modelled from the spec: `jwt.decode(token, secret, algorithms)` fails with
`InvalidToken` if the signature does not match the payload under the given
secret, fails with `Expired` if `now >= exp`, and otherwise returns the
decoded payload. -/
def jwtDecode (secret : String) (now : Nat) (t : JwtToken) :
    Except JwtFailure Payload :=
  if t.sig = (secret, t.payload) then
    if t.payload.exp ≤ now then Except.error JwtFailure.expired
    else Except.ok t.payload
  else Except.error JwtFailure.invalidToken

/-- The ch15 signing secret (main.py line 29). -/
def SECRET_KEY : String :=
  "09d25e094faa6ca2556c818166b7a9563b93f7099f6f0f4caa6cf63b88e8d3e7"

/-- The ch15 token lifetime (main.py line 31), in minutes. -/
def ACCESS_TOKEN_EXPIRE_MINUTES : Nat := 30

/-- Embedding of `create_access_token` (ch15 main.py lines 175-184) applied to
the payload dict `{"sub": sub, "scopes": scopes}` that ch15 passes to it: copy
the data, add `exp = now + expires_delta` (`expires_delta` in seconds here)
and encode under `SECRET_KEY`. -/
def create_access_token (now : Nat) (sub : String) (scopes : List String)
    (expires_delta : Nat) : JwtToken :=
  jwtEncode SECRET_KEY { sub := some sub, scopes := scopes, exp := now + expires_delta }

/-- Embedding of `get_user` (ch15 main.py lines 153-158): look the user up by
name in the user database. -/
def get_user (db : List (String × UserInDB)) (username : String) :
    Option UserInDB :=
  dictLookup db username

/-- The `credentials_exception` of ch15 `get_current_user` (main.py lines
224-228): HTTP 401 for a missing/invalid credential. -/
def credentials_exception : HTTPError :=
  { status_code := 401, detail := "인증 정보를 확인할 수 없습니다" }

/-- Embedding of `get_current_user` (ch15 main.py lines 209-261): decode the
token (any decode failure gives the 401 `credentials_exception`), require a
`sub` claim, look up the user (absent gives 401), reject a disabled user with
HTTP 400, then require every scope declared by the endpoint to be present in
the token's scopes, rejecting with HTTP 401 otherwise; finally return the
user record. -/
def get_current_user (db : List (String × UserInDB))
    (security_scopes : List String) (now : Nat) (token : JwtToken) :
    Except HTTPError UserInDB :=
  match jwtDecode SECRET_KEY now token with
  | Except.error _ => Except.error credentials_exception
  | Except.ok payload =>
    match payload.sub with
    | Option.none => Except.error credentials_exception
    | some username =>
      match get_user db username with
      | Option.none => Except.error credentials_exception
      | some user =>
        if user.disabled then
          Except.error { status_code := 400, detail := "비활성화된 사용자입니다" }
        else if security_scopes.all (fun scope => payload.scopes.contains scope) then
          Except.ok user
        else
          Except.error { status_code := 401, detail := "이 작업에 필요한 권한이 부족합니다" }

/-- Modelled from the spec: password hashing is the external `passlib` bcrypt
context, not part of this repository's sources; `get_password_hash` is
modelled as an injective tagging of the plaintext. -/
def get_password_hash (password : String) : String :=
  "$bcrypt$" ++ password

/-- Modelled from the spec: `verify_password` (backed by the external
`passlib` bcrypt context) checks the plaintext against the stored hash. -/
def verify_password (plain_password hashed_password : String) : Bool :=
  get_password_hash plain_password = hashed_password

/-- Embedding of `authenticate_user` (ch15 main.py lines 161-168): look up the
user and check the password; `none` on either failure. -/
def authenticate_user (db : List (String × UserInDB))
    (username password : String) : Option UserInDB :=
  match get_user db username with
  | Option.none => Option.none
  | some user =>
      if verify_password password user.hashed_password then some user
      else Option.none

/-- The `Token` response model of ch15 (main.py lines 55-58). -/
structure Token where
  access_token : JwtToken
  token_type : String
deriving DecidableEq, Repr

/-- Embedding of `login_for_access_token` (ch15 main.py lines 334-362):
authenticate; on failure raise HTTP 401; otherwise grant exactly the requested
scopes that the user holds (`granted_scopes`), and issue a token for
`user.username` with those scopes and the standard 30-minute expiry. -/
def login_for_access_token (db : List (String × UserInDB)) (now : Nat)
    (username password : String) (requested_scopes : List String) :
    Except HTTPError Token :=
  match authenticate_user db username password with
  | Option.none =>
      Except.error
        { status_code := 401, detail := "사용자명 또는 비밀번호가 올바르지 않습니다" }
  | some user =>
      let granted_scopes :=
        requested_scopes.filter (fun scope => user.scopes.contains scope)
      Except.ok
        { access_token :=
            create_access_token now user.username granted_scopes
              (ACCESS_TOKEN_EXPIRE_MINUTES * 60),
          token_type := "bearer" }

/-! Concrete fixtures used by counterexamples and witnesses. -/

/-- A cache with no entries and zeroed statistics, as after `clear()`. -/
def emptyCache : InMemoryCache := { store := [], hits := 0, misses := 0 }

/-- A wrapped function whose result is Python's `None`. -/
def noneFunc : PyFunc := { name := "f", impl := fun _ _ => Except.ok PyVal.none }

/-- A wrapped function named `compute` returning `0`. -/
def fCompute0 : PyFunc :=
  { name := "compute", impl := fun _ _ => Except.ok (PyVal.int 0) }

/-- A different wrapped function, also named `compute`, returning `1`. -/
def fCompute1 : PyFunc :=
  { name := "compute", impl := fun _ _ => Except.ok (PyVal.int 1) }

/-- A wrapped function that raises. -/
def raiseFunc : PyFunc :=
  { name := "boom", impl := fun _ _ => Except.error { msg := "boom" } }

/-- A cache holding an already-expired entry under `raiseFunc`'s derived key
for a no-argument call. -/
def expiredCache : InMemoryCache :=
  { store := [(PyFunc.cacheKey raiseFunc [] [], (PyVal.int 5, 10))],
    hits := 0, misses := 0 }

/-- C1 (Cache Store TTL contract): `get` returns the stored value with a hit
exactly in the present-and-unexpired case (`now` strictly before
`expires_at`); an expired entry is deleted and counted as a miss returning
`None`; an absent key is a miss returning `None`.  In particular an entry is
never returned once `expires_at ≤ now`. -/
theorem cache_get_ttl_contract (c : InMemoryCache) (now : Nat) (key : String) :
    (∀ v exp, dictLookup c.store key = some (v, exp) → now < exp →
        InMemoryCache.get c now key = (v, { c with hits := c.hits + 1 })) ∧
    (∀ v exp, dictLookup c.store key = some (v, exp) → exp ≤ now →
        InMemoryCache.get c now key =
          (PyVal.none,
            { c with store := dictErase c.store key,
                     misses := c.misses + 1 })) ∧
    (dictLookup c.store key = Option.none →
        InMemoryCache.get c now key =
          (PyVal.none, { c with misses := c.misses + 1 })) := by
  refine ⟨?_, ?_, ?_⟩
  · intro v exp h hlt
    simp [InMemoryCache.get, h, hlt]
  · intro v exp h hle
    have hnlt : ¬ now < exp := Nat.not_lt.mpr hle
    simp [InMemoryCache.get, h, hnlt]
  · intro h
    simp [InMemoryCache.get, h]

/-- Witness for C1: a concrete unexpired entry is returned as a hit. -/
theorem cache_get_ttl_contract_witness :
    InMemoryCache.get
        { store := [("k", (PyVal.int 5, 10))], hits := 3, misses := 4 } 7 "k" =
      (PyVal.int 5,
        { store := [("k", (PyVal.int 5, 10))], hits := 4, misses := 4 }) :=
  (cache_get_ttl_contract
      { store := [("k", (PyVal.int 5, 10))], hits := 3, misses := 4 } 7 "k").1
    (PyVal.int 5) 10 (by decide) (by decide)

/-- C4 counterexample: two distinct wrapped functions that share the Python
`__name__` `compute` derive the same cache key on the same arguments, so keys
do collide across distinct functions — the key namespaces only by
`func.__name__`, not by function identity. -/
theorem cache_key_collision_cex :
    PyFunc.cacheKey fCompute0 [PyVal.int 3] [] =
        PyFunc.cacheKey fCompute1 [PyVal.int 3] [] ∧
      fCompute0 ≠ fCompute1 := by
  constructor
  · rfl
  · intro h
    have h2 := congrArg (fun g => g.impl [] []) h
    simp [fCompute0, fCompute1] at h2

/-- C4 (amended): the cache key is a deterministic function of the wrapped
function's `__name__`, its positional arguments and its sorted keyword
arguments; any two wrapped functions with equal `__name__` derive equal keys
on equal arguments (equal-argument calls always agree, and distinct functions
sharing a `__name__` collide). -/
theorem cache_key_by_name (f g : PyFunc) (args : List PyVal)
    (kwargs : List (String × PyVal)) (h : f.name = g.name) :
    f.cacheKey args kwargs = g.cacheKey args kwargs := by
  simp [PyFunc.cacheKey, h]

/-- Witness for C4 (amended) at two concrete same-named functions. -/
theorem cache_key_by_name_witness :
    PyFunc.cacheKey fCompute0 [] [("a", PyVal.int 1)] =
      PyFunc.cacheKey fCompute1 [] [("a", PyVal.int 1)] :=
  cache_key_by_name fCompute0 fCompute1 [] [("a", PyVal.int 1)] rfl

/-- Helper: a `get` never adds or modifies an entry — after a lookup every key
is bound as before or (only through eviction of an expired entry) unbound. -/
theorem get_store_pointwise (c : InMemoryCache) (now : Nat) (key k : String) :
    dictLookup (InMemoryCache.get c now key).2.store k = dictLookup c.store k ∨
      dictLookup (InMemoryCache.get c now key).2.store k = Option.none := by
  unfold InMemoryCache.get
  cases hl : dictLookup c.store key with
  | none => simp
  | some p =>
      obtain ⟨v, exp⟩ := p
      by_cases hlt : now < exp
      · simp [hlt]
      · simp [hlt, dictLookup_erase]
        by_cases hk : k = key <;> simp [hk]

/-- C5 counterexample: a memoized function whose result is `None`, called
twice with identical arguments within the TTL, invokes the underlying
function on both calls (invocation count 1 each time, 2 in total), because
`get` cannot distinguish a stored `None` from absence — the claim's
"exactly once" fails for `None`-returning functions. -/
theorem cached_exactly_once_cex :
    (cachedCall noneFunc 60 [] [] 0 emptyCache).2.2 = 1 ∧
      (cachedCall noneFunc 60 [] [] 1
          (cachedCall noneFunc 60 [] [] 0 emptyCache).2.1).2.2 = 1 := by
  constructor <;> rfl

/-- C5 (amended): for every memoized function and arguments whose result is
not `None`, starting from a state where the derived key is absent, two calls
with identical arguments within the TTL window invoke the underlying function
exactly once — the first call invokes it (count 1) and stores the result, the
second returns the cached value without invoking it (count 0). -/
theorem cached_exactly_once (f : PyFunc) (ttl : Nat) (args : List PyVal)
    (kwargs : List (String × PyVal)) (t0 t1 : Nat) (c : InMemoryCache)
    (v : PyVal)
    (hfresh : dictLookup c.store (f.cacheKey args kwargs) = Option.none)
    (himpl : f.impl args kwargs = Except.ok v)
    (hv : v ≠ PyVal.none)
    (hwin : t1 < t0 + ttl) :
    (cachedCall f ttl args kwargs t0 c).1 = Except.ok v ∧
    (cachedCall f ttl args kwargs t0 c).2.2 = 1 ∧
    (cachedCall f ttl args kwargs t1
        (cachedCall f ttl args kwargs t0 c).2.1).1 = Except.ok v ∧
    (cachedCall f ttl args kwargs t1
        (cachedCall f ttl args kwargs t0 c).2.1).2.2 = 0 := by
  have h1 : cachedCall f ttl args kwargs t0 c =
      (Except.ok v,
        InMemoryCache.set { c with misses := c.misses + 1 } t0
          (f.cacheKey args kwargs) v ttl, 1) := by
    simp [cachedCall, InMemoryCache.get, hfresh, himpl]
  have hkey : dictLookup
      (dictInsert c.store (f.cacheKey args kwargs) (v, t0 + ttl))
      (f.cacheKey args kwargs) = some (v, t0 + ttl) :=
    dictLookup_insert_self c.store (f.cacheKey args kwargs) (v, t0 + ttl)
  have h2 : cachedCall f ttl args kwargs t1
      (cachedCall f ttl args kwargs t0 c).2.1 =
      (Except.ok v,
        { store := dictInsert c.store (f.cacheKey args kwargs) (v, t0 + ttl),
          hits := c.hits + 1, misses := c.misses + 1 }, 0) := by
    rw [h1]
    simp [cachedCall, InMemoryCache.get, InMemoryCache.set, hkey, hwin, hv]
  rw [h2, h1]
  exact ⟨rfl, rfl, rfl, rfl⟩

/-- Witness for C5 (amended) at a concrete non-`None` computation: the second
call within the TTL does not invoke the wrapped function. -/
theorem cached_exactly_once_witness :
    (cachedCall fCompute0 60 [PyVal.int 3] [] 10
        (cachedCall fCompute0 60 [PyVal.int 3] [] 0 emptyCache).2.1).1 =
        Except.ok (PyVal.int 0) ∧
      (cachedCall fCompute0 60 [PyVal.int 3] [] 10
        (cachedCall fCompute0 60 [PyVal.int 3] [] 0 emptyCache).2.1).2.2 = 0 :=
  ⟨(cached_exactly_once fCompute0 60 [PyVal.int 3] [] 0 10 emptyCache
      (PyVal.int 0) (by decide) rfl (by decide) (by decide)).2.2.1,
   (cached_exactly_once fCompute0 60 [PyVal.int 3] [] 0 10 emptyCache
      (PyVal.int 0) (by decide) rfl (by decide) (by decide)).2.2.2⟩

/-- C6 counterexample: on a cache miss caused by an expired entry, the lookup
evicts that entry before the wrapped function raises, so the entry map after
the failing call is not identical to the map before it — the literal "entry
map is left unchanged" fails (even though nothing was cached). -/
theorem cached_error_map_changed_cex :
    (cachedCall raiseFunc 60 [] [] 20 expiredCache).1 =
        Except.error { msg := "boom" } ∧
      (cachedCall raiseFunc 60 [] [] 20 expiredCache).2.1.store ≠
        expiredCache.store := by
  constructor
  · rfl
  · decide

/-- C6 (amended): on a cache miss where the wrapped function raises, the
decorator performs no `set`: the state after the call is exactly the state
after the miss lookup, the wrapped function's own exception propagates
unchanged (the decorator raises nothing of its own), and no key gains or
changes an entry — pointwise, every binding is as before the call or absent
(the lookup may only have evicted an already-expired entry). -/
theorem cached_error_no_caching (f : PyFunc) (ttl : Nat) (args : List PyVal)
    (kwargs : List (String × PyVal)) (now : Nat) (c : InMemoryCache)
    (e : PyExc)
    (hmiss : (InMemoryCache.get c now (f.cacheKey args kwargs)).1 = PyVal.none)
    (himpl : f.impl args kwargs = Except.error e) :
    cachedCall f ttl args kwargs now c =
      (Except.error e,
        (InMemoryCache.get c now (f.cacheKey args kwargs)).2, 1) ∧
    (∀ k, dictLookup (cachedCall f ttl args kwargs now c).2.1.store k =
            dictLookup c.store k ∨
          dictLookup (cachedCall f ttl args kwargs now c).2.1.store k =
            Option.none) := by
  have h1 : cachedCall f ttl args kwargs now c =
      (Except.error e,
        (InMemoryCache.get c now (f.cacheKey args kwargs)).2, 1) := by
    simp [cachedCall, hmiss, himpl]
  refine ⟨h1, ?_⟩
  intro k
  rw [h1]
  exact get_store_pointwise c now (f.cacheKey args kwargs) k

/-- Witness for C6 (amended): a raising call on an empty cache leaves the
(empty) store as the miss lookup left it and propagates the exception. -/
theorem cached_error_no_caching_witness :
    cachedCall raiseFunc 60 [] [] 0 emptyCache =
      (Except.error { msg := "boom" },
        (InMemoryCache.get emptyCache 0
          (PyFunc.cacheKey raiseFunc [] [])).2, 1) :=
  (cached_error_no_caching raiseFunc 60 [] [] 0 emptyCache { msg := "boom" }
    (by decide) rfl).1

/-- C10 counterexample: memoize a function returning `None` and call it twice
within the TTL: the decorator re-invokes both times, but after the two calls
the miss counter is 1 and the hit counter is 1 — the second lookup finds the
unexpired stored `None` and counts a HIT, contradicting the claim that each
such call increments the miss counter. -/
theorem cached_none_miss_counter_cex :
    (cachedCall noneFunc 60 [] [] 1
        (cachedCall noneFunc 60 [] [] 0 emptyCache).2.1).2.1.misses = 1 ∧
      (cachedCall noneFunc 60 [] [] 1
        (cachedCall noneFunc 60 [] [] 0 emptyCache).2.1).2.1.hits = 1 := by
  constructor <;> rfl

/-- C10 (amended): `get` returns `None` both for an absent/expired key and for
a stored `None`, so a memoized function whose result is `None` is re-invoked
on every call; the first call (key absent) increments the miss counter, while
a second call within the TTL increments the hit counter — the store-level
lookup finds the unexpired `None` entry — and still re-invokes the wrapped
function. -/
theorem cached_none_reinvoked (f : PyFunc) (ttl : Nat) (args : List PyVal)
    (kwargs : List (String × PyVal)) (t0 t1 : Nat) (c : InMemoryCache)
    (hfresh : dictLookup c.store (f.cacheKey args kwargs) = Option.none)
    (himpl : f.impl args kwargs = Except.ok PyVal.none)
    (hwin : t1 < t0 + ttl) :
    (cachedCall f ttl args kwargs t0 c).2.2 = 1 ∧
    (cachedCall f ttl args kwargs t0 c).2.1.misses = c.misses + 1 ∧
    (cachedCall f ttl args kwargs t0 c).2.1.hits = c.hits ∧
    (cachedCall f ttl args kwargs t1
        (cachedCall f ttl args kwargs t0 c).2.1).1 = Except.ok PyVal.none ∧
    (cachedCall f ttl args kwargs t1
        (cachedCall f ttl args kwargs t0 c).2.1).2.2 = 1 ∧
    (cachedCall f ttl args kwargs t1
        (cachedCall f ttl args kwargs t0 c).2.1).2.1.hits = c.hits + 1 ∧
    (cachedCall f ttl args kwargs t1
        (cachedCall f ttl args kwargs t0 c).2.1).2.1.misses = c.misses + 1 := by
  have h1 : cachedCall f ttl args kwargs t0 c =
      (Except.ok PyVal.none,
        InMemoryCache.set { c with misses := c.misses + 1 } t0
          (f.cacheKey args kwargs) PyVal.none ttl, 1) := by
    simp [cachedCall, InMemoryCache.get, hfresh, himpl]
  have hkey : dictLookup
      (dictInsert c.store (f.cacheKey args kwargs) (PyVal.none, t0 + ttl))
      (f.cacheKey args kwargs) = some (PyVal.none, t0 + ttl) :=
    dictLookup_insert_self c.store (f.cacheKey args kwargs)
      (PyVal.none, t0 + ttl)
  have h2 : cachedCall f ttl args kwargs t1
      (cachedCall f ttl args kwargs t0 c).2.1 =
      (Except.ok PyVal.none,
        InMemoryCache.set
          { store := dictInsert c.store (f.cacheKey args kwargs)
              (PyVal.none, t0 + ttl),
            hits := c.hits + 1, misses := c.misses + 1 } t1
          (f.cacheKey args kwargs) PyVal.none ttl, 1) := by
    rw [h1]
    simp [cachedCall, InMemoryCache.get, InMemoryCache.set, hkey, hwin, himpl]
  rw [h2, h1]
  simp [InMemoryCache.set]

/-- Witness for C10 (amended) at the concrete `None`-returning function. -/
theorem cached_none_reinvoked_witness :
    (cachedCall noneFunc 60 [] [] 5
        (cachedCall noneFunc 60 [] [] 0 emptyCache).2.1).2.2 = 1 ∧
      (cachedCall noneFunc 60 [] [] 5
        (cachedCall noneFunc 60 [] [] 0 emptyCache).2.1).2.1.hits = 1 :=
  ⟨(cached_none_reinvoked noneFunc 60 [] [] 0 5 emptyCache
      (by decide) rfl (by decide)).2.2.2.2.1,
   (cached_none_reinvoked noneFunc 60 [] [] 0 5 emptyCache
      (by decide) rfl (by decide)).2.2.2.2.2.1⟩

/-- An active user `alice` holding only the `items:read` scope. -/
def aliceUser : UserInDB :=
  { username := "alice", full_name := "Alice", email := "alice@example.com",
    role := Role.user, hashed_password := get_password_hash "alice1234",
    disabled := false, scopes := ["items:read"] }

/-- A deactivated user `bob` (`disabled = true`, so `active = false`). -/
def bobUser : UserInDB :=
  { username := "bob", full_name := "Bob", email := "bob@example.com",
    role := Role.user, hashed_password := get_password_hash "bob1234",
    disabled := true, scopes := ["items:read"] }

/-- A concrete user database holding `alice` and `bob`. -/
def authDb : List (String × UserInDB) := [("alice", aliceUser), ("bob", bobUser)]

/-- A valid token for `alice` carrying the `items:read` scope, issued at time
0 with a 30-minute expiry. -/
def aliceToken : JwtToken := create_access_token 0 "alice" ["items:read"] 1800

/-- A valid token for the deactivated user `bob`. -/
def bobToken : JwtToken := create_access_token 0 "bob" ["items:read"] 1800

/-- C2 counterexample: a valid token for the existing but deactivated user
`bob` makes the chain fail with HTTP 400 (Bad Request), not with the
Forbidden kind: in this codebase the Forbidden kind is HTTP 403 (used by
`role_required` and the API-key guard), and 400 is also raised for ordinary
bad requests (for example self-deletion), so the failure is not the distinct
insufficient-privilege class the claim names. -/
theorem user_active_forbidden_cex :
    get_current_user authDb [] 0 bobToken =
        Except.error { status_code := 400, detail := "비활성화된 사용자입니다" } ∧
      (400 : Nat) ≠ 403 := by
  constructor
  · rfl
  · decide

/-- C2 (amended): for every request carrying a valid token whose subject
names an existing user record with `disabled = true`, the chain fails with
HTTP 400 (Bad Request, detail "비활성화된 사용자입니다") — a failure distinct
from the 401 `credentials_exception`, but not the 403 Forbidden kind. -/
theorem user_active_bad_request (db : List (String × UserInDB))
    (security_scopes : List String) (now : Nat) (token : JwtToken)
    (payload : Payload) (username : String) (user : UserInDB)
    (hdec : jwtDecode SECRET_KEY now token = Except.ok payload)
    (hsub : payload.sub = some username)
    (huser : get_user db username = some user)
    (hdis : user.disabled = true) :
    get_current_user db security_scopes now token =
      Except.error { status_code := 400, detail := "비활성화된 사용자입니다" } := by
  simp [get_current_user, hdec, hsub, huser, hdis]

/-- Witness for C2 (amended) at the concrete deactivated user `bob`. -/
theorem user_active_bad_request_witness :
    get_current_user authDb ["items:read"] 0 bobToken =
      Except.error { status_code := 400, detail := "비활성화된 사용자입니다" } :=
  user_active_bad_request authDb ["items:read"] 0 bobToken
    { sub := some "bob", scopes := ["items:read"], exp := 1800 } "bob" bobUser
    rfl rfl rfl rfl

/-- C3 counterexample: `alice` holds a valid token with scopes
`{"items:read"}`; calling an endpoint requiring `items:write` fails with HTTP
401 (the same status as the Unauthenticated `credentials_exception`), not
with the 403 Forbidden kind this codebase uses for privilege failures
(`role_required`, API-key guard) — so the scope failure is not the distinct
Forbidden class the claim names. -/
theorem scope_satisfied_forbidden_cex :
    get_current_user authDb ["items:write"] 0 aliceToken =
        Except.error
          { status_code := 401, detail := "이 작업에 필요한 권한이 부족합니다" } ∧
      (401 : Nat) ≠ 403 := by
  constructor
  · rfl
  · decide

/-- C3 (amended): for a request by an existing, active user with a valid
token, if some scope in the endpoint's declared requirement set is missing
from the token's scopes the chain fails with HTTP 401 (detail
"이 작업에 필요한 권한이 부족합니다", the same status code as the
Unauthenticated failures); if every required scope is present the chain
succeeds and returns the user's record. -/
theorem scope_satisfied_check (db : List (String × UserInDB))
    (security_scopes : List String) (now : Nat) (token : JwtToken)
    (payload : Payload) (username : String) (user : UserInDB)
    (hdec : jwtDecode SECRET_KEY now token = Except.ok payload)
    (hsub : payload.sub = some username)
    (huser : get_user db username = some user)
    (hact : user.disabled = false) :
    (security_scopes.all (fun scope => payload.scopes.contains scope) = false →
        get_current_user db security_scopes now token =
          Except.error
            { status_code := 401,
              detail := "이 작업에 필요한 권한이 부족합니다" }) ∧
    (security_scopes.all (fun scope => payload.scopes.contains scope) = true →
        get_current_user db security_scopes now token = Except.ok user) := by
  constructor
  · intro hall
    simp only [get_current_user, hdec, hsub, huser]
    rw [hact, hall]
    simp
  · intro hall
    simp only [get_current_user, hdec, hsub, huser]
    rw [hact, hall]
    simp

/-- Witness for C3 (amended): `alice`'s token with `items:read` passes an
endpoint requiring `items:read` and returns her record. -/
theorem scope_satisfied_check_witness :
    get_current_user authDb ["items:read"] 0 aliceToken =
      Except.ok aliceUser :=
  (scope_satisfied_check authDb ["items:read"] 0 aliceToken
      { sub := some "alice", scopes := ["items:read"], exp := 1800 }
      "alice" aliceUser rfl rfl rfl rfl).2 rfl

/-- C7 (token round-trip): for every subject, scope list and `ttl > 0`,
issuing a token at `now` and verifying it immediately (same `now`, same
symmetric secret) succeeds and returns claims with the same subject and
scopes. -/
theorem issue_verify_roundtrip (now : Nat) (sub : String)
    (scopes : List String) (ttl : Nat) (h : 0 < ttl) :
    jwtDecode SECRET_KEY now (create_access_token now sub scopes ttl) =
      Except.ok { sub := some sub, scopes := scopes, exp := now + ttl } := by
  have hlt : ¬ (now + ttl ≤ now) := by omega
  simp [jwtDecode, create_access_token, jwtEncode, hlt]

/-- Witness for C7 at a concrete issuance. -/
theorem issue_verify_roundtrip_witness :
    jwtDecode SECRET_KEY 0 (create_access_token 0 "alice" ["items:read"] 1800) =
      Except.ok { sub := some "alice", scopes := ["items:read"], exp := 1800 } :=
  issue_verify_roundtrip 0 "alice" ["items:read"] 1800 (by decide)

/-- C8 (verify error taxonomy): verification fails with `InvalidToken` when
the signature does not match the payload under the secret, fails with
`Expired` when `now ≥ exp`, otherwise returns the decoded claims; the two
failure kinds are distinct constructors, hence distinguishable by the
caller. -/
theorem verify_error_taxonomy (secret : String) (now : Nat) (t : JwtToken) :
    (t.sig ≠ (secret, t.payload) →
        jwtDecode secret now t = Except.error JwtFailure.invalidToken) ∧
    (t.sig = (secret, t.payload) → t.payload.exp ≤ now →
        jwtDecode secret now t = Except.error JwtFailure.expired) ∧
    (t.sig = (secret, t.payload) → now < t.payload.exp →
        jwtDecode secret now t = Except.ok t.payload) ∧
    JwtFailure.invalidToken ≠ JwtFailure.expired := by
  refine ⟨?_, ?_, ?_, by decide⟩
  · intro hsig
    simp [jwtDecode, hsig]
  · intro hsig hexp
    simp [jwtDecode, hsig, hexp]
  · intro hsig hlt
    have hn : ¬ (t.payload.exp ≤ now) := Nat.not_le.mpr hlt
    simp [jwtDecode, hsig, hn]

/-- Witness for C8: a token tampered to carry a signature made under a
different secret is rejected as `InvalidToken`. -/
theorem verify_error_taxonomy_witness :
    jwtDecode SECRET_KEY 0
        { payload := { sub := some "alice", scopes := [], exp := 1800 },
          sig := ("othersecret",
                  { sub := some "alice", scopes := [], exp := 1800 }) } =
      Except.error JwtFailure.invalidToken :=
  (verify_error_taxonomy SECRET_KEY 0
      { payload := { sub := some "alice", scopes := [], exp := 1800 },
        sig := ("othersecret",
                { sub := some "alice", scopes := [], exp := 1800 }) }).1
    (by decide)

/-- C9 (scope-subset-at-issuance): every successful login issues a token
whose embedded scopes are a subset of the authenticated user record's scopes
— requested scopes the user does not hold are filtered out, never granted. -/
theorem login_scopes_subset (db : List (String × UserInDB)) (now : Nat)
    (username password : String) (requested_scopes : List String) (tok : Token)
    (h : login_for_access_token db now username password requested_scopes =
      Except.ok tok) :
    ∃ user, authenticate_user db username password = some user ∧
      ∀ s, s ∈ tok.access_token.payload.scopes → s ∈ user.scopes := by
  unfold login_for_access_token at h
  cases hauth : authenticate_user db username password with
  | none =>
      rw [hauth] at h
      exact absurd h (by simp)
  | some user =>
      rw [hauth] at h
      simp only [Except.ok.injEq] at h
      refine ⟨user, rfl, ?_⟩
      intro s hs
      rw [← h] at hs
      simp only [create_access_token, jwtEncode] at hs
      have hmem := (List.mem_filter.mp hs).2
      simpa using hmem

/-- Witness for C9: `alice` logs in requesting both `items:read` and
`items:write`; the issued token's scopes are contained in her granted
scopes. -/
theorem login_scopes_subset_witness :
    ∃ user, authenticate_user authDb "alice" "alice1234" = some user ∧
      ∀ s, s ∈ (Token.access_token
          { access_token :=
              create_access_token 0 "alice" ["items:read"]
                (ACCESS_TOKEN_EXPIRE_MINUTES * 60),
            token_type := "bearer" }).payload.scopes → s ∈ user.scopes :=
  login_scopes_subset authDb 0 "alice" "alice1234"
    ["items:read", "items:write"]
    { access_token :=
        create_access_token 0 "alice" ["items:read"]
          (ACCESS_TOKEN_EXPIRE_MINUTES * 60),
      token_type := "bearer" }
    rfl
